import Mathlib

/-!
Shallow embedding of the Envoy Mixer HTTP filter
(src/src/envoy/mixer/http_filter.cc) and verification of its
specification claims.

The embedding models:
  * `HttpCode` — the canonical-to-HTTP status mapper (lines 53-94);
  * the route switches `mixer_disabled` / `forward_disabled`
    (lines 158-185), over a model of routes with a per-route
    string-to-string configuration (opaqueConfig in the source);
  * the per-request state machine of class `Instance`:
    `decodeHeaders`, `decodeData`, `decodeTrailers`, the reset-stream
    callback installed by `setDecoderFilterCallbacks`, `completeCheck`,
    and the access-log hook `log` (lines 140-315);
  * the `Config` constructor (lines 105-132).

Stateful code becomes explicit state passing on `InstanceState`;
observable side effects (headers added, local replies sent,
continueDecoding calls, report calls, log lines) become explicit
effect records returned next to the new state.
-/

namespace Mixer

/-- Canonical status codes of the protobuf error space
(StatusCode = google::protobuf::util::error::Code): OK = 0,
CANCELLED = 1, UNKNOWN = 2, INVALID_ARGUMENT = 3, DEADLINE_EXCEEDED = 4,
NOT_FOUND = 5, ALREADY_EXISTS = 6, PERMISSION_DENIED = 7,
RESOURCE_EXHAUSTED = 8, FAILED_PRECONDITION = 9, ABORTED = 10,
OUT_OF_RANGE = 11, UNIMPLEMENTED = 12, INTERNAL = 13, UNAVAILABLE = 14,
DATA_LOSS = 15, UNAUTHENTICATED = 16.  The C++ `HttpCode` takes the code
as a plain `int`, so we model it on `Int`. -/
def HttpCode (code : Int) : Int :=
  if code = 0 then 200        -- StatusCode::OK
  else if code = 1 then 499   -- StatusCode::CANCELLED
  else if code = 2 then 500   -- StatusCode::UNKNOWN
  else if code = 3 then 400   -- StatusCode::INVALID_ARGUMENT
  else if code = 4 then 504   -- StatusCode::DEADLINE_EXCEEDED
  else if code = 5 then 404   -- StatusCode::NOT_FOUND
  else if code = 6 then 409   -- StatusCode::ALREADY_EXISTS
  else if code = 7 then 403   -- StatusCode::PERMISSION_DENIED
  else if code = 8 then 429   -- StatusCode::RESOURCE_EXHAUSTED
  else if code = 9 then 400   -- StatusCode::FAILED_PRECONDITION
  else if code = 10 then 409  -- StatusCode::ABORTED
  else if code = 11 then 400  -- StatusCode::OUT_OF_RANGE
  else if code = 12 then 501  -- StatusCode::UNIMPLEMENTED
  else if code = 13 then 500  -- StatusCode::INTERNAL
  else if code = 14 then 503  -- StatusCode::UNAVAILABLE
  else if code = 15 then 500  -- StatusCode::DATA_LOSS
  else if code = 16 then 401  -- StatusCode::UNAUTHENTICATED
  else 500                    -- default

/-- The seventeen canonical codes appearing in the `HttpCode` table. -/
def canonicalCodes : List Int :=
  [0, 1, 2, 3, 4, 5, 6, 7, 8, 9, 10, 11, 12, 13, 14, 15, 16]

/-- A `google::protobuf::util::Status`: an error code plus a message.
`ToString()` of the status is what the filter sends as the description
in a local reply; we keep the whole status in the effect record. -/
structure Status where
  error_code : Int
  message : String
deriving DecidableEq, Repr

/-- `Status::ok()` holds exactly when the error code is OK (0). -/
def Status.ok (s : Status) : Bool :=
  s.error_code = 0

/-- The per-request state enum of class `Instance` (line 147). -/
inductive InstState where
  | NotStarted
  | Calling
  | Complete
  | Responded
deriving DecidableEq, Repr

/-- A route entry: its per-route key/value configuration
(`opaqueConfig()` in the source, a string multimap; `find` returns the
first mapping for the key, modelled with `List.find?`). -/
structure RouteEntry where
  configMap : List (String × String)
deriving DecidableEq, Repr

/-- A route: `routeEntry()` may be null. -/
structure Route where
  routeEntry : Option RouteEntry
deriving DecidableEq, Repr

/-- Lookup of a key in the per-route configuration: the first pair with
that key, as `multimap::find` returns. -/
def findKey (m : List (String × String)) (k : String) : Option String :=
  (m.find? (fun p => p.1 == k)).map Prod.snd

/-- Switch key to turn off mixer check/report (kJsonNameMixerSwitch). -/
def kJsonNameMixerSwitch : String := "mixer_control"

/-- Switch key to turn off attribute forwarding
(kJsonNameForwardSwitch). -/
def kJsonNameForwardSwitch : String := "mixer_forward"

/-- `Instance::mixer_disabled` (lines 158-170): the mixer control switch
is off by default; it returns `false` (control enabled) only when the
route exists, has a route entry, and that entry's configuration maps
`mixer_control` to exactly `"on"`.  `decoder_callbacks_->route()` is the
`Option Route` argument. -/
def mixer_disabled (route : Option Route) : Bool :=
  match route with
  | some r =>
    match r.routeEntry with
    | some entry =>
      match findKey entry.configMap kJsonNameMixerSwitch with
      | some v => if v == "on" then false else true
      | none => true
    | none => true
  | none => true

/-- `Instance::forward_disabled` (lines 173-185): attribute forwarding
is on by default; it returns `true` (forwarding disabled) only when the
route exists, has a route entry, and that entry's configuration maps
`mixer_forward` to exactly `"off"`. -/
def forward_disabled (route : Option Route) : Bool :=
  match route with
  | some r =>
    match r.routeEntry with
    | some entry =>
      match findKey entry.configMap kJsonNameForwardSwitch with
      | some v => if v == "off" then true else false
      | none => false
    | none => false
  | none => false

/-- The mutable per-request state of class `Instance`:
`state_`, `initiating_call_`, `check_status_code_`, `mixer_disabled_`
and whether `request_data_` has been allocated (it is a null
`shared_ptr` until `decodeHeaders` runs with the mixer enabled). -/
structure InstanceState where
  state : InstState
  initiating_call : Bool
  check_status_code : Int
  mixer_disabled_flag : Bool
  request_data : Bool
deriving DecidableEq, Repr

/-- The `Instance` constructor (lines 188-195): state NotStarted,
`initiating_call_` false, `check_status_code_ = HttpCode(UNKNOWN)`.
The member `mixer_disabled_` is not initialized by the constructor
(it is first written in `decodeHeaders`), so its initial value is a
parameter. -/
def Instance.mk0 (uninitMixerDisabled : Bool) : InstanceState :=
  { state := InstState.NotStarted
    initiating_call := false
    check_status_code := HttpCode 2
    mixer_disabled_flag := uninitMixerDisabled
    request_data := false }

/-- Observable effects of one run of `completeCheck`:
whether `Utility::sendLocalReply` was called (with which transport code
and which status, whose `ToString()` is the reply body), and whether
`decoder_callbacks_->continueDecoding()` was called. -/
structure CompleteCheckEffects where
  sentLocalReply : Option (Int × Status)
  resumed : Bool
deriving DecidableEq, Repr

/-- `Instance::completeCheck` (lines 276-292), as a state transformer.
If the status is a failure and the state is not yet Responded, it moves
the state to Responded, records `HttpCode(status.error_code())` in
`check_status_code_`, sends a local reply with that code and the status
description, and returns without resuming.  Otherwise it falls through:
sets the state to Complete and, when not inside the issuing frame
(`initiating_call_` false), calls `continueDecoding()`. -/
def completeCheck (status : Status) (s : InstanceState) :
    InstanceState × CompleteCheckEffects :=
  if status.ok = false ∧ s.state ≠ InstState.Responded then
    ({ s with
        state := InstState.Responded
        check_status_code := HttpCode status.error_code },
     { sentLocalReply := some (HttpCode status.error_code, status)
       resumed := false })
  else
    ({ s with state := InstState.Complete },
     { sentLocalReply := none
       resumed := !s.initiating_call })

/-- The reset-stream callback registered in
`Instance::setDecoderFilterCallbacks` (lines 268-274): it forces the
state to Responded. -/
def onResetStream (s : InstanceState) : InstanceState :=
  { s with state := InstState.Responded }

/-- Return value of `decodeHeaders`. -/
inductive FilterHeadersStatus where
  | Continue
  | StopIteration
deriving DecidableEq, Repr

/-- Return value of `decodeData`. -/
inductive FilterDataStatus where
  | Continue
  | StopIterationAndBuffer
deriving DecidableEq, Repr

/-- Return value of `decodeTrailers`. -/
inductive FilterTrailersStatus where
  | Continue
  | StopIteration
deriving DecidableEq, Repr

/-- The externally visible actions `decodeHeaders` can take, in the
order they happen: adding the forwarding header
(`headers.addStatic(kIstioAttributeHeader, forward_attributes)`) and
issuing the check call (`http_control_->Check(...)`). -/
inductive HeaderEvent where
  | addForwardHeader (blob : String)
  | checkCall
deriving DecidableEq, Repr

/-- Observable effects of one run of `decodeHeaders`: the ordered list
of header events, plus the effects of a check completion that ran
synchronously inside the issuing frame (none when the completion is
asynchronous). -/
structure DecodeHeadersEffects where
  events : List HeaderEvent
  sentLocalReply : Option (Int × Status)
  resumed : Bool
deriving DecidableEq, Repr

/-- `Instance::decodeHeaders` (lines 205-240), as a state transformer.

`forward_attributes` is `config_->forward_attributes()`; `route` is
`decoder_callbacks_->route()`.  The collaborator `http_control_->Check`
may invoke the (dispatcher-wrapped) completion callback before `Check`
returns or after; `syncStatus = some st` models the completion running
inside the issuing frame with status `st`, `syncStatus = none` models an
asynchronous completion (apply `completeCheck` to the resulting state
later).

Steps, exactly as in the source: (1) if the forwarded-attribute blob is
non-empty and forwarding is enabled for the route, add the forwarding
header; (2) cache `mixer_disabled()` in the member and, if disabled,
return Continue; (3) set state to Calling, set `initiating_call_`,
allocate `request_data_`, issue the check (running the completion now
when synchronous); (4) clear `initiating_call_`; (5) return Continue
when the state is Complete, StopIteration otherwise. -/
def decodeHeaders (forward_attributes : String) (route : Option Route)
    (syncStatus : Option Status) (s : InstanceState) :
    InstanceState × DecodeHeadersEffects × FilterHeadersStatus :=
  let hdrEvents :=
    if forward_attributes ≠ "" ∧ forward_disabled route = false then
      [HeaderEvent.addForwardHeader forward_attributes]
    else []
  let md := mixer_disabled route
  let s1 : InstanceState := { s with mixer_disabled_flag := md }
  if md then
    (s1,
     { events := hdrEvents, sentLocalReply := none, resumed := false },
     FilterHeadersStatus.Continue)
  else
    let s2 : InstanceState :=
      { s1 with
          state := InstState.Calling
          initiating_call := true
          request_data := true }
    let sync :=
      match syncStatus with
      | some st => completeCheck st s2
      | none =>
        (s2, { sentLocalReply := none, resumed := false })
    let s3 : InstanceState := { sync.1 with initiating_call := false }
    let ret :=
      if s3.state = InstState.Complete then FilterHeadersStatus.Continue
      else FilterHeadersStatus.StopIteration
    (s3,
     { events := hdrEvents ++ [HeaderEvent.checkCall]
       sentLocalReply := sync.2.sentLocalReply
       resumed := sync.2.resumed },
     ret)

/-- `Instance::decodeData` (lines 242-254): pass-through when the mixer
was resolved disabled at header time; stop and buffer while the state is
Calling; Continue otherwise.  It reads but never writes the state. -/
def decodeData (s : InstanceState) : FilterDataStatus :=
  if s.mixer_disabled_flag then FilterDataStatus.Continue
  else if s.state = InstState.Calling then
    FilterDataStatus.StopIterationAndBuffer
  else FilterDataStatus.Continue

/-- `Instance::decodeTrailers` (lines 256-266): pass-through when the
mixer was resolved disabled at header time; stop while the state is
Calling; Continue otherwise.  It reads but never writes the state. -/
def decodeTrailers (s : InstanceState) : FilterTrailersStatus :=
  if s.mixer_disabled_flag then FilterTrailersStatus.Continue
  else if s.state = InstState.Calling then
    FilterTrailersStatus.StopIteration
  else FilterTrailersStatus.Continue

/-- Observable effect of the access-log hook `Instance::log`
(lines 294-308): whether `http_control_->Report` was issued and, when
it was, the `check_status_code_` passed to it. -/
structure LogEffects where
  reportIssued : Bool
  reportStatusCode : Option Int
deriving DecidableEq, Repr

/-- `Instance::log` (lines 294-308): if `request_data_` was never
allocated (decodeHeaders did not run, or ran with the mixer disabled),
return without reporting; otherwise issue the report with the recorded
`check_status_code_`.  The hook does not modify the per-request state. -/
def logHook (s : InstanceState) : LogEffects :=
  if s.request_data = false then
    { reportIssued := false, reportStatusCode := none }
  else
    { reportIssued := true, reportStatusCode := some s.check_status_code }

/-- Observable effects of the report-completion lambda passed to
`http_control_->Report` in `Instance::log`: its body is a single
`Log().debug(...)` statement, so the only effect is one log line —
no local reply, no resume, no state write. -/
structure ReportDoneEffects where
  logLines : Nat
  sentLocalReply : Option (Int × Status)
  resumed : Bool
  stateWrite : Option InstState
deriving DecidableEq, Repr

/-- The report-completion callback (lines 304-307): logs the report
outcome and does nothing else, for every status. -/
def reportDone (_status : Status) : ReportDoneEffects :=
  { logLines := 1
    sentLocalReply := none
    resumed := false
    stateWrite := none }

/-- The configuration object handed to the `Config` constructor, with
the three fields the constructor reads: the `mixer_server` string
(absent when `config.hasObject(kJsonNameMixerServer)` is false), and
the string maps extracted for `forward_attributes` and
`mixer_attributes` (empty when absent). -/
structure JsonConfig where
  mixer_server : Option String
  forward_attributes : List (String × String)
  mixer_attributes : List (String × String)
deriving DecidableEq, Repr

/-- The fields of `Config` built by its constructor that the claims are
about: the mixer server address and the encoded forwarded-attribute
blob (`forward_attributes_`, empty unless set). -/
@[ext]
structure ConfigState where
  mixer_server : String
  forward_attributes_ : String
deriving DecidableEq, Repr

/-- Side effects a run of the `Config` constructor can emit. The
constructor only logs; issuing a network call is included in the type so
that its absence is expressible. -/
inductive ConfigEffect where
  | logError
  | logDebug
  | networkCall
deriving DecidableEq, Repr

/-- `Config::Config` (lines 105-132), as a function from the parsed
configuration to the built fields and the ordered effect trace.
`serialize` models `Utils::SerializeStringMap` and `encode` models
`Base64::encode`, both supplied by out-of-scope collaborators.

Steps, exactly as in the source: (1) read `mixer_server`, logging an
error (but continuing with the empty string) when absent; (2) when the
forwarded-attribute map is non-empty, serialize it, Base64-encode it
into `forward_attributes_`, and log a debug line; otherwise leave
`forward_attributes_` empty; (3) build the `HttpControl` object (no
network call) and log a final debug line. -/
def Config.construct (serialize : List (String × String) → String)
    (encode : String → String) (config : JsonConfig) :
    ConfigState × List ConfigEffect :=
  let serverStep :=
    match config.mixer_server with
    | some v => (v, ([] : List ConfigEffect))
    | none => ("", [ConfigEffect.logError])
  let attrs := config.forward_attributes
  let fwdStep :=
    if attrs ≠ [] then
      (encode (serialize attrs), [ConfigEffect.logDebug])
    else ("", ([] : List ConfigEffect))
  ({ mixer_server := serverStep.1, forward_attributes_ := fwdStep.1 },
   serverStep.2 ++ fwdStep.2 ++ [ConfigEffect.logDebug])

/-! ## Shared concrete fixtures used by the claims -/

/-- A route whose per-route configuration switches mixer control on. -/
def mixerOnRoute : Option Route :=
  some { routeEntry := some { configMap := [(kJsonNameMixerSwitch, "on")] } }

/-- The per-request state after header processing on a mixer-enabled
route when the check did not complete inside the issuing frame: the
state is Calling, the issuing frame has returned. -/
def afterHeadersAsync : InstanceState :=
  (decodeHeaders "" mixerOnRoute none (Instance.mk0 false)).1

/-! ## Claims -/

/-- Claim C6: the canonical-to-transport status mapper is total and
returns exactly success 200, cancelled 499, unknown 500,
invalid-argument 400, deadline-exceeded 504, not-found 404,
already-exists 409, permission-denied 403, resource-exhausted 429,
failed-precondition 400, aborted 409, out-of-range 400,
unimplemented 501, internal 500, unavailable 503, data-loss 500,
unauthenticated 401; every code outside the table maps to 500. -/
theorem C6_HttpCode_table :
    (HttpCode 0 = 200 ∧ HttpCode 1 = 499 ∧ HttpCode 2 = 500 ∧
     HttpCode 3 = 400 ∧ HttpCode 4 = 504 ∧ HttpCode 5 = 404 ∧
     HttpCode 6 = 409 ∧ HttpCode 7 = 403 ∧ HttpCode 8 = 429 ∧
     HttpCode 9 = 400 ∧ HttpCode 10 = 409 ∧ HttpCode 11 = 400 ∧
     HttpCode 12 = 501 ∧ HttpCode 13 = 500 ∧ HttpCode 14 = 503 ∧
     HttpCode 15 = 500 ∧ HttpCode 16 = 401) ∧
    ∀ c : Int, c ∉ canonicalCodes → HttpCode c = 500 := by
  refine ⟨by decide, ?_⟩
  intro c hc
  simp only [canonicalCodes, List.mem_cons, List.not_mem_nil, or_false,
    not_or] at hc
  obtain ⟨h0, h1, h2, h3, h4, h5, h6, h7, h8, h9, h10, h11, h12, h13,
    h14, h15, h16⟩ := hc
  unfold HttpCode
  rw [if_neg h0, if_neg h1, if_neg h2, if_neg h3, if_neg h4, if_neg h5,
    if_neg h6, if_neg h7, if_neg h8, if_neg h9, if_neg h10, if_neg h11,
    if_neg h12, if_neg h13, if_neg h14, if_neg h15, if_neg h16]

/-- Claim C6 witness: a code outside the table maps to 500. -/
theorem C6_HttpCode_table_witness : HttpCode 17 = 500 :=
  C6_HttpCode_table.2 17 (by decide)

/-- Claim C7: policy control is disabled by default and enabled exactly
when the route's per-route configuration maps the control key to the
literal "on"; attribute forwarding is enabled by default and disabled
exactly when the configuration maps the forward key to the literal
"off"; an absent route or absent route entry yields the defaults, and an
absent key or any other value also yields that key's default. -/
theorem C7_route_switches :
    mixer_disabled none = true ∧
    forward_disabled none = false ∧
    (∀ r : Route, r.routeEntry = none →
      mixer_disabled (some r) = true ∧ forward_disabled (some r) = false) ∧
    (∀ (r : Route) (e : RouteEntry), r.routeEntry = some e →
      (mixer_disabled (some r) = false ↔
        findKey e.configMap kJsonNameMixerSwitch = some "on") ∧
      (forward_disabled (some r) = true ↔
        findKey e.configMap kJsonNameForwardSwitch = some "off")) := by
  refine ⟨rfl, rfl, ?_, ?_⟩
  · intro r he
    exact ⟨by simp [mixer_disabled, he], by simp [forward_disabled, he]⟩
  · intro r e he
    constructor
    · rcases hf : findKey e.configMap kJsonNameMixerSwitch with _ | v
      · simp [mixer_disabled, he, hf]
      · by_cases hv : v = "on" <;> simp [mixer_disabled, he, hf, hv]
    · rcases hf : findKey e.configMap kJsonNameForwardSwitch with _ | v
      · simp [forward_disabled, he, hf]
      · by_cases hv : v = "off" <;> simp [forward_disabled, he, hf, hv]

/-- Claim C7 witness: a route mapping the control key to "on" enables
policy control, and a route mapping the forward key to "off" disables
forwarding. -/
theorem C7_route_switches_witness :
    mixer_disabled (some ⟨some ⟨[(kJsonNameMixerSwitch, "on")]⟩⟩) = false ∧
    forward_disabled
      (some ⟨some ⟨[(kJsonNameForwardSwitch, "off")]⟩⟩) = true := by
  constructor
  · exact ((C7_route_switches.2.2.2 ⟨some ⟨[(kJsonNameMixerSwitch, "on")]⟩⟩
      ⟨[(kJsonNameMixerSwitch, "on")]⟩ rfl).1).mpr (by decide)
  · exact ((C7_route_switches.2.2.2 ⟨some ⟨[(kJsonNameForwardSwitch, "off")]⟩⟩
      ⟨[(kJsonNameForwardSwitch, "off")]⟩ rfl).2).mpr (by decide)

/-- Claim C1, evaluated at the input the claim rules out (Scenario E):
after header processing on a mixer-enabled route with the check still
outstanding, a stream reset forces the state to Responded; the claim
says a subsequently arriving check completion must leave the state at
Responded and must not resume the stream, but `completeCheck` — whether
the late completion carries a success status or a failure status — falls
through its guard, moves the state to Complete and calls
`continueDecoding()`. -/
theorem C1_late_completion_after_reset :
    (onResetStream afterHeadersAsync).state = InstState.Responded ∧
    (completeCheck ⟨0, ""⟩ (onResetStream afterHeadersAsync)).1.state =
      InstState.Complete ∧
    (completeCheck ⟨0, ""⟩ (onResetStream afterHeadersAsync)).2.resumed =
      true ∧
    (completeCheck ⟨7, ""⟩ (onResetStream afterHeadersAsync)).1.state =
      InstState.Complete ∧
    (completeCheck ⟨7, ""⟩ (onResetStream afterHeadersAsync)).2.resumed =
      true := by
  decide

/-- Claim C2: a check completion carrying a failure code while the state
is not yet Responded moves the state to Responded, records the failure's
transport mapping as the decision status code, sends a local reply with
that transport status and the failure description, and does not resume;
and when the state is already Responded, a later completion does not
re-send a response. -/
theorem C2_completeCheck_failure (st : Status) (s : InstanceState)
    (hfail : st.ok = false) :
    (s.state ≠ InstState.Responded →
      completeCheck st s =
        ({ s with
            state := InstState.Responded
            check_status_code := HttpCode st.error_code },
         { sentLocalReply := some (HttpCode st.error_code, st)
           resumed := false })) ∧
    (s.state = InstState.Responded →
      (completeCheck st s).2.sentLocalReply = none) := by
  constructor
  · intro hne
    simp [completeCheck, hfail, hne]
  · intro heq
    simp [completeCheck, heq]

/-- Claim C2 witness: a permission-denied (code 7) completion while the
state is Calling responds with transport status 403 and does not
resume. -/
theorem C2_completeCheck_failure_witness :
    completeCheck ⟨7, "PERMISSION_DENIED"⟩ afterHeadersAsync =
      ({ afterHeadersAsync with
          state := InstState.Responded
          check_status_code := HttpCode 7 },
       { sentLocalReply := some (HttpCode 7, ⟨7, "PERMISSION_DENIED"⟩)
         resumed := false }) :=
  (C2_completeCheck_failure ⟨7, "PERMISSION_DENIED"⟩ afterHeadersAsync
    (by decide)).1 (by decide)

/-- Claim C3: with policy control enabled and a successful check, a
completion that runs synchronously inside the issuing frame leaves the
header handler observing state Complete after the call returns,
returning Continue, with no explicit resume; a completion that runs
asynchronously finds that the header handler returned StopIteration, and
the completion handler issues exactly one explicit resume. -/
theorem C3_sync_async_success (fa : String) (route : Option Route)
    (st : Status) (s : InstanceState)
    (hen : mixer_disabled route = false) (hok : st.ok = true) :
    ((decodeHeaders fa route (some st) s).1.state = InstState.Complete ∧
     (decodeHeaders fa route (some st) s).2.2 =
       FilterHeadersStatus.Continue ∧
     (decodeHeaders fa route (some st) s).2.1.resumed = false) ∧
    ((decodeHeaders fa route none s).2.2 =
       FilterHeadersStatus.StopIteration ∧
     (completeCheck st (decodeHeaders fa route none s).1).1.state =
       InstState.Complete ∧
     (completeCheck st (decodeHeaders fa route none s).1).2.resumed =
       true ∧
     (completeCheck st
       (decodeHeaders fa route none s).1).2.sentLocalReply = none) := by
  constructor
  · simp [decodeHeaders, completeCheck, hen, hok]
  · simp [decodeHeaders, completeCheck, hen, hok]

/-- Claim C3 witness: on a mixer-enabled route, a synchronous successful
completion makes the header handler return Continue, and an asynchronous
one makes it return StopIteration with the completion resuming. -/
theorem C3_sync_async_success_witness :
    (decodeHeaders "" mixerOnRoute (some ⟨0, ""⟩)
        (Instance.mk0 false)).2.2 = FilterHeadersStatus.Continue ∧
    (decodeHeaders "" mixerOnRoute none (Instance.mk0 false)).2.2 =
      FilterHeadersStatus.StopIteration ∧
    (completeCheck ⟨0, ""⟩ (decodeHeaders "" mixerOnRoute none
        (Instance.mk0 false)).1).2.resumed = true := by
  have h := C3_sync_async_success "" mixerOnRoute ⟨0, ""⟩
    (Instance.mk0 false) (by decide) (by decide)
  exact ⟨h.1.2.1, h.2.1, h.2.2.2.1⟩

/-- Claim C4: when policy control was resolved disabled at header time
(the cached flag is set by `decodeHeaders` from the route switch), body
and trailer handling return Continue unconditionally; otherwise both
stop while the state is Calling (the body handler buffering) and return
Continue in every other state. -/
theorem C4_body_trailer_gating (s : InstanceState) (fa : String)
    (route : Option Route) (sync : Option Status) :
    (s.mixer_disabled_flag = true →
      decodeData s = FilterDataStatus.Continue ∧
      decodeTrailers s = FilterTrailersStatus.Continue) ∧
    (s.mixer_disabled_flag = false → s.state = InstState.Calling →
      decodeData s = FilterDataStatus.StopIterationAndBuffer ∧
      decodeTrailers s = FilterTrailersStatus.StopIteration) ∧
    (s.mixer_disabled_flag = false → s.state ≠ InstState.Calling →
      decodeData s = FilterDataStatus.Continue ∧
      decodeTrailers s = FilterTrailersStatus.Continue) ∧
    (mixer_disabled route = true →
      (decodeHeaders fa route sync s).1.mixer_disabled_flag = true) := by
  refine ⟨fun h => ?_, fun h hc => ?_, fun h hc => ?_, fun h => ?_⟩
  · simp [decodeData, decodeTrailers, h]
  · simp [decodeData, decodeTrailers, h, hc]
  · simp [decodeData, decodeTrailers, h, hc]
  · simp [decodeHeaders, h]

/-- Claim C4 witness: with control enabled and a check outstanding, a
body chunk is stopped and buffered and trailers are stopped. -/
theorem C4_body_trailer_gating_witness :
    decodeData afterHeadersAsync = FilterDataStatus.StopIterationAndBuffer ∧
    decodeTrailers afterHeadersAsync = FilterTrailersStatus.StopIteration :=
  (C4_body_trailer_gating afterHeadersAsync "" none none).2.1
    (by decide) (by decide)

/-- Auxiliary evaluation: the default decision status code,
`HttpCode(StatusCode::UNKNOWN)`, is 500. -/
theorem HttpCode_unknown : HttpCode 2 = 500 := by decide

/-- Claim C5: a successful check completion changes only the state field
— it never writes the decision status code — so a report issued at
stream completion for an allowed request carries the constructor's
default unknown mapping 500, not 200. -/
theorem C5_success_keeps_default_code (st : Status) (s : InstanceState)
    (hok : st.ok = true) (b : Bool) :
    (completeCheck st s).1 = { s with state := InstState.Complete } ∧
    (Instance.mk0 b).check_status_code = 500 ∧
    (∀ (fa : String) (route : Option Route),
      mixer_disabled route = false →
      logHook (completeCheck st
          (decodeHeaders fa route none (Instance.mk0 b)).1).1 =
        { reportIssued := true, reportStatusCode := some 500 }) := by
  refine ⟨?_, ?_, ?_⟩
  · simp [completeCheck, hok]
  · simpa [Instance.mk0] using HttpCode_unknown
  · intro fa route hen
    simp [decodeHeaders, completeCheck, logHook, Instance.mk0, hen, hok,
      HttpCode_unknown]

/-- Claim C5 witness: a request allowed by an asynchronous successful
check reports status code 500. -/
theorem C5_success_keeps_default_code_witness :
    logHook (completeCheck ⟨0, ""⟩
        (decodeHeaders "" mixerOnRoute none (Instance.mk0 false)).1).1 =
      { reportIssued := true, reportStatusCode := some 500 } :=
  (C5_success_keeps_default_code ⟨0, ""⟩ (Instance.mk0 false) (by decide)
    false).2.2 "" mixerOnRoute (by decide)

/-- Claim C8: at header arrival, when the configured forwarded-attribute
blob is non-empty and forwarding is enabled for the route, exactly one
forwarding header carrying the blob is added, and it is added before any
check call; when forwarding is disabled, no forwarding header is added
regardless of blob presence. -/
theorem C8_forwarding_header (fa : String) (route : Option Route)
    (sync : Option Status) (s : InstanceState) :
    (fa ≠ "" → forward_disabled route = false →
      (decodeHeaders fa route sync s).2.1.events.count
          (HeaderEvent.addForwardHeader fa) = 1 ∧
      (decodeHeaders fa route sync s).2.1.events.head? =
        some (HeaderEvent.addForwardHeader fa)) ∧
    (forward_disabled route = true →
      ∀ blob : String, HeaderEvent.addForwardHeader blob ∉
        (decodeHeaders fa route sync s).2.1.events) := by
  constructor
  · intro h1 h2
    by_cases hmd : mixer_disabled route <;>
      simp [decodeHeaders, h1, h2, hmd]
  · intro h blob
    by_cases hmd : mixer_disabled route <;>
      simp [decodeHeaders, h, hmd]

/-- Claim C8 witness: with a non-empty blob and forwarding enabled
(default), exactly one forwarding header is added, first. -/
theorem C8_forwarding_header_witness :
    (decodeHeaders "blob" none none (Instance.mk0 false)).2.1.events.count
        (HeaderEvent.addForwardHeader "blob") = 1 ∧
    (decodeHeaders "blob" none none (Instance.mk0 false)).2.1.events.head?
      = some (HeaderEvent.addForwardHeader "blob") :=
  (C8_forwarding_header "blob" none none (Instance.mk0 false)).1
    (by decide) (by decide)

/-- Claim C9: the report is issued at logging time exactly when the
per-request shared data exists; a request whose route had policy control
disabled at header time never allocates it and produces no report; and
the report-completion callback only logs — it sends nothing to the
client, resumes nothing, and writes no state. -/
theorem C9_report_iff_request_data (s : InstanceState) (st : Status)
    (fa : String) (route : Option Route) (sync : Option Status)
    (b : Bool) :
    ((logHook s).reportIssued = true ↔ s.request_data = true) ∧
    (mixer_disabled route = true →
      (decodeHeaders fa route sync (Instance.mk0 b)).1.request_data =
        false ∧
      (logHook (decodeHeaders fa route sync
          (Instance.mk0 b)).1).reportIssued = false) ∧
    reportDone st =
      { logLines := 1, sentLocalReply := none, resumed := false,
        stateWrite := none } := by
  refine ⟨?_, fun h => ?_, rfl⟩
  · cases hr : s.request_data <;> simp [logHook, hr]
  · simp [decodeHeaders, logHook, Instance.mk0, h]

/-- Claim C9 witness: a request on a route without the control switch
produces no report. -/
theorem C9_report_iff_request_data_witness :
    (logHook (decodeHeaders "" none none
        (Instance.mk0 false)).1).reportIssued = false :=
  ((C9_report_iff_request_data (Instance.mk0 false) ⟨0, ""⟩ "" none none
      false).2.1 (by decide)).2

/-- Claim C10: constructing the shared filter configuration with a
missing decision-service identifier logs an error but completes with an
empty service address; the forwarded-attribute blob is serialized and
encoded only when the forwarded-attribute map is non-empty, otherwise it
stays empty; and the construction trace contains no network call. -/
theorem C10_config_construction
    (serialize : List (String × String) → String)
    (encode : String → String) (fa ma : List (String × String))
    (server : Option String) :
    ((Config.construct serialize encode
        { mixer_server := none, forward_attributes := fa,
          mixer_attributes := ma }).1.mixer_server = "" ∧
     ConfigEffect.logError ∈ (Config.construct serialize encode
        { mixer_server := none, forward_attributes := fa,
          mixer_attributes := ma }).2) ∧
    (fa = [] →
      (Config.construct serialize encode
        { mixer_server := server, forward_attributes := fa,
          mixer_attributes := ma }).1.forward_attributes_ = "") ∧
    (fa ≠ [] →
      (Config.construct serialize encode
        { mixer_server := server, forward_attributes := fa,
          mixer_attributes := ma }).1.forward_attributes_ =
        encode (serialize fa)) ∧
    ConfigEffect.networkCall ∉ (Config.construct serialize encode
        { mixer_server := server, forward_attributes := fa,
          mixer_attributes := ma }).2 := by
  refine ⟨⟨?_, ?_⟩, fun h => ?_, fun h => ?_, ?_⟩
  · simp [Config.construct]
  · simp [Config.construct]
  · simp [Config.construct, h]
  · simp [Config.construct, h]
  · rcases server with _ | v <;> by_cases h : fa = [] <;>
      simp [Config.construct, h]

/-- Claim C10 witness: with a missing service identifier and a non-empty
forwarded-attribute map, construction yields an empty address and the
encoded blob. -/
theorem C10_config_construction_witness :
    (Config.construct (fun _ => "serialized") (fun x => x ++ "64")
        { mixer_server := none, forward_attributes := [("a", "b")],
          mixer_attributes := [] }).1 =
      { mixer_server := "", forward_attributes_ := "serialized64" } := by
  have h := C10_config_construction (fun _ => "serialized")
    (fun x => x ++ "64") [("a", "b")] [] none
  have h1 := h.1.1
  have h2 := h.2.2.1 (by simp)
  exact ConfigState.ext h1 h2

end Mixer
